import Mathlib

/-!
Verification of the email/calendar backend's core behaviors: the provider
error-normalization helpers (`exception_handling.py`), the Gmail gateway
call wrappers and MIME body extraction (`extra/service.py`), the OAuth
callback upsert (`routes/auth.py`), and the local-mirror sync and
per-message endpoints (`routes/email.py`).  Python functions are embedded
as executable Lean definitions; database state is a list of records,
exceptions are `Except`/explicit error values.
-/

/-! ## Exception taxonomy (`exception.py`)

Each constructor mirrors one exception class actually raised by the
normalization helpers, carrying its constructor arguments.  The three
resource-specific not-found classes are included because the spec's table
names them as the expected outcome for provider 404s. -/

inductive Exc where
  | invalidTokenError (message : String)
  | authorizationError (message : String)
  | gmailQuotaExceededError (message : String)
  | gmailAPIError (message : String) (details : List (String × String))
  | externalServiceError (serviceName : String) (message : String)
  | externalServiceTimeoutError (serviceName : String)
  | emailNotFoundError (email_id : Nat)
  | draftNotFoundError (draft_id : String)
  | calendarEventNotFoundError (event_id : String)
  deriving Repr, DecidableEq

/-- HTTP status carried by each exception class (`exception.py` class
constructors: 401/403/429/500/503/504/404). -/
def Exc.status_code : Exc → Nat
  | .invalidTokenError _ => 401
  | .authorizationError _ => 403
  | .gmailQuotaExceededError _ => 429
  | .gmailAPIError _ _ => 500
  | .externalServiceError _ _ => 503
  | .externalServiceTimeoutError _ => 504
  | .emailNotFoundError _ => 404
  | .draftNotFoundError _ => 404
  | .calendarEventNotFoundError _ => 404

/-- Spec-side predicate (§4.2 table, 404 row): is this one of the
resource-kind-specific not-found exceptions (message/draft/event)? -/
def Exc.isResourceSpecificNotFound : Exc → Bool
  | .emailNotFoundError _ => true
  | .draftNotFoundError _ => true
  | .calendarEventNotFoundError _ => true
  | _ => false

/-! ## Error normalization helpers (`exception_handling.py`)

`handle_google_api_error` and `handle_request_error` convert provider
exceptions into the taxonomy above.  In Python they `raise`; here they
return the raised exception value. -/

/-- `handle_google_api_error(exc, operation)`: dispatch on
`exc.resp.status` in source order 401, 403, 429, 404, else.  The else
branch passes `details={"status_code": exc.resp.status}`. -/
def handle_google_api_error (status : Nat) (operation : String) : Exc :=
  if status = 401 then
    .invalidTokenError "Google API authentication failed"
  else if status = 403 then
    .authorizationError "Google API access forbidden"
  else if status = 429 then
    .gmailQuotaExceededError "Google API quota exceeded"
  else if status = 404 then
    .gmailAPIError ("Google API resource not found during " ++ operation) []
  else
    .gmailAPIError ("Google API error during " ++ operation)
      [("status_code", toString status)]

/-- The transport exceptions distinguished by `handle_request_error`
(`requests.exceptions.Timeout`, `ConnectionError`, other
`RequestException`). -/
inductive RequestExc where
  | timeout
  | connectionError
  | other (message : String)
  deriving Repr, DecidableEq

/-- `handle_request_error(exc, service_name)`. -/
def handle_request_error (exc : RequestExc) (service_name : String) : Exc :=
  match exc with
  | .timeout => .externalServiceTimeoutError service_name
  | .connectionError => .externalServiceError service_name "Connection error"
  | .other m => .externalServiceError service_name m

/-! ## MIME body extraction (`extra/service.py`, `parse_message`)

A Gmail payload part has a `mimeType`, optional base64url `body.data`
(modelled as the raw string, with the decoder passed in as a function),
and a list of sub-`parts`.  `extract_body` mutates the two `nonlocal`
accumulators `(body_text, body_html)`; here it threads them explicitly. -/

inductive MimePart where
  | mk (mimeType : String) (data : String) (parts : List MimePart)
  deriving Repr

def MimePart.mimeType : MimePart → String
  | .mk t _ _ => t

def MimePart.data : MimePart → String
  | .mk _ d _ => d

def MimePart.parts : MimePart → List MimePart
  | .mk _ _ ps => ps

mutual

/-- `extract_body(part)`: on a `text/plain` part with non-empty data set
`body_text`; elif `text/html` with non-empty data set `body_html`; elif
the part has (truthy, i.e. non-empty) sub-parts recurse into each.  The
accumulator is `(body_text, body_html)`. -/
def extract_body (decode : String → String) (part : MimePart)
    (acc : String × String) : String × String :=
  match part with
  | .mk mimeType data parts =>
    if mimeType = "text/plain" then
      if data ≠ "" then (decode data, acc.2) else acc
    else if mimeType = "text/html" then
      if data ≠ "" then (acc.1, decode data) else acc
    else if parts.isEmpty then acc
    else extract_body_list decode parts acc

/-- The `for subpart in part['parts']` loop of `extract_body`. -/
def extract_body_list (decode : String → String) (parts : List MimePart)
    (acc : String × String) : String × String :=
  match parts with
  | [] => acc
  | p :: ps => extract_body_list decode ps (extract_body decode p acc)

end

/-! ## C1, C2 theorems -/

/-- `extract_body_list` over an appended list runs the first segment, then
the second, threading the accumulator. -/
theorem extract_body_list_append (decode : String → String)
    (xs ys : List MimePart) (acc : String × String) :
    extract_body_list decode (xs ++ ys) acc
      = extract_body_list decode ys (extract_body_list decode xs acc) := by
  induction xs generalizing acc with
  | nil => rfl
  | cons p ps ih => simp [extract_body_list, ih]

/-- C1 counterexample: `handle_google_api_error` maps a provider 404 to the
generic `GmailAPIError` (with a resource-not-found message naming the
operation), not to any resource-kind-specific not-found exception; and the
generic non-2xx branch carries only the raw status in its details, no
response body. -/
theorem c1_error_table_counterexample :
    (handle_google_api_error 404 "message").isResourceSpecificNotFound = false
      ∧ handle_google_api_error 404 "message"
          = .gmailAPIError "Google API resource not found during message" []
      ∧ handle_google_api_error 500 "listing messages"
          = .gmailAPIError "Google API error during listing messages"
              [("status_code", "500")] := by
  refine ⟨rfl, rfl, rfl⟩

/-- C1 amended: the normalized outcomes are: 401 `InvalidTokenError`,
403 `AuthorizationError`, 429 `GmailQuotaExceededError`, 404 the generic
`GmailAPIError` with a resource-not-found message naming the operation
(not a resource-kind-specific not-found error), any other non-2xx the
generic `GmailAPIError` carrying the raw status (but not the body) in its
details, a network timeout `ExternalServiceTimeoutError`, and a network
connection failure `ExternalServiceError`. -/
theorem c1_error_table_amended (status : Nat) (operation service_name : String)
    (h1 : status ≠ 401) (h2 : status ≠ 403) (h3 : status ≠ 429)
    (h4 : status ≠ 404) :
    handle_google_api_error 401 operation
        = .invalidTokenError "Google API authentication failed"
      ∧ handle_google_api_error 403 operation
          = .authorizationError "Google API access forbidden"
      ∧ handle_google_api_error 429 operation
          = .gmailQuotaExceededError "Google API quota exceeded"
      ∧ handle_google_api_error 404 operation
          = .gmailAPIError
              ("Google API resource not found during " ++ operation) []
      ∧ handle_google_api_error status operation
          = .gmailAPIError ("Google API error during " ++ operation)
              [("status_code", toString status)]
      ∧ handle_request_error .timeout service_name
          = .externalServiceTimeoutError service_name
      ∧ handle_request_error .connectionError service_name
          = .externalServiceError service_name "Connection error" := by
  refine ⟨rfl, rfl, rfl, rfl, ?_, rfl, rfl⟩
  simp [handle_google_api_error, h1, h2, h3, h4]

/-- C1 witness: the amended mapping at status 500, operation "op",
service "gmail". -/
theorem c1_error_table_amended_witness :
    handle_google_api_error 401 "op"
        = .invalidTokenError "Google API authentication failed"
      ∧ handle_google_api_error 403 "op"
          = .authorizationError "Google API access forbidden"
      ∧ handle_google_api_error 429 "op"
          = .gmailQuotaExceededError "Google API quota exceeded"
      ∧ handle_google_api_error 404 "op"
          = .gmailAPIError ("Google API resource not found during " ++ "op") []
      ∧ handle_google_api_error 500 "op"
          = .gmailAPIError ("Google API error during " ++ "op")
              [("status_code", toString 500)]
      ∧ handle_request_error .timeout "gmail"
          = .externalServiceTimeoutError "gmail"
      ∧ handle_request_error .connectionError "gmail"
          = .externalServiceError "gmail" "Connection error" :=
  c1_error_table_amended 500 "op" "gmail"
    (by decide) (by decide) (by decide) (by decide)

/-- C2 counterexample: with two `text/plain` leaves in one multipart
payload, `extract_body` retains the body of the second leaf, not the
first. -/
theorem c2_first_match_counterexample :
    extract_body id
        (.mk "multipart/alternative" ""
          [.mk "text/plain" "AAAA" [], .mk "text/plain" "BBBB" []])
        ("", "")
      = ("BBBB", "")
      ∧ ("BBBB" : String) ≠ "AAAA" := by
  exact ⟨rfl, by decide⟩

/-- C2 amended: depth-first extraction retains the body of the LAST leaf
of each MIME type with non-empty data: a later `text/plain` (likewise
`text/html`) leaf overwrites the already-found body of that type.  Here:
whenever the payload's part list ends with such a leaf, that leaf's
decoded body is the one retained. -/
theorem c2_later_leaf_overwrites (decode : String → String)
    (mt data d : String) (ps : List MimePart) (acc : String × String)
    (hmt1 : mt ≠ "text/plain") (hmt2 : mt ≠ "text/html") (hd : d ≠ "") :
    (extract_body decode
        (.mk mt data (ps ++ [.mk "text/plain" d []])) acc).1 = decode d
      ∧ (extract_body decode
          (.mk mt data (ps ++ [.mk "text/html" d []])) acc).2 = decode d := by
  constructor <;>
    simp [extract_body, hmt1, hmt2, hd, extract_body_list_append,
      extract_body_list]

/-- C2 witness: the amended property at a concrete two-leaf payload. -/
theorem c2_later_leaf_overwrites_witness :
    (extract_body id
        (.mk "multipart/alternative" ""
          ([MimePart.mk "text/plain" "AAAA" []]
            ++ [.mk "text/plain" "BBBB" []])) ("", "")).1 = id "BBBB"
      ∧ (extract_body id
          (.mk "multipart/alternative" ""
            ([MimePart.mk "text/plain" "AAAA" []]
              ++ [.mk "text/html" "BBBB" []])) ("", "")).2 = id "BBBB" :=
  c2_later_leaf_overwrites id "multipart/alternative" "" "BBBB"
    [MimePart.mk "text/plain" "AAAA" []] ("", "")
    (by decide) (by decide) (by decide)

/-! ## Credential store and OAuth callback upsert (`routes/auth.py`, `database.py`)

A `users` row; `id` is the auto-increment primary key.  Python `None` /
empty-string falsiness for `google_id` and `name` is modelled as the
empty string. -/

structure UserRec where
  id : Nat
  email : String
  name : String
  google_id : String
  access_token : String
  refresh_token : String
  deriving Repr, DecidableEq

/-- The identity returned by Google's userinfo endpoint, as consumed by
`callback` (`user_info['id']`, `user_info['email']`,
`user_info.get('name', '')`). -/
structure UserInfo where
  id : String
  email : String
  name : String
  deriving Repr, DecidableEq

/-- Auto-increment primary key for a newly inserted `users` row. -/
def nextUserId (store : List UserRec) : Nat :=
  store.foldl (fun m u => max m u.id) 0 + 1

/-- `.first()` followed by in-place mutation: update the first row whose
email matches, leave every other row untouched. -/
def updateFirstUser (store : List UserRec) (email : String)
    (f : UserRec → UserRec) : List UserRec :=
  match store with
  | [] => []
  | u :: us =>
    if u.email == email then f u :: us
    else u :: updateFirstUser us email f

/-- The upsert step of `callback`: look up the user by the resolved email;
if present always overwrite both tokens and backfill `google_id` / `name`
only when empty; if absent insert a new row with the fetched identity and
fresh tokens, then commit. -/
def callback_upsert (store : List UserRec) (info : UserInfo)
    (access_token refresh_token : String) : List UserRec :=
  if store.any (fun u => u.email == info.email) then
    updateFirstUser store info.email (fun u =>
      { u with
        access_token := access_token
        refresh_token := refresh_token
        google_id := if u.google_id = "" then info.id else u.google_id
        name := if u.name = "" then info.name else u.name })
  else
    let newUser : UserRec :=
      { id := nextUserId store, email := info.email,
        name := info.name, google_id := info.id,
        access_token := access_token, refresh_token := refresh_token }
    store ++ [newUser]

/-! ## Local mirror records and sync (`routes/email.py`, `database.py`) -/

/-- The dict returned by `parse_message` (minus `user_id`, which
`sync_emails` supplies).  `received_at` is an abstract timestamp; `labels`
is the JSON-serialized label list. -/
structure ParsedMsg where
  message_id : String
  thread_id : String
  subject : String
  sender : String
  recipient : String
  body_text : String
  body_html : String
  labels : String
  received_at : Nat
  is_read : Bool
  is_starred : Bool
  deriving Repr, DecidableEq

/-- An `emails` row (`database.py`); `message_id` carries a DB-level
unique constraint. -/
structure EmailRec where
  id : Nat
  message_id : String
  user_id : Nat
  thread_id : String
  subject : String
  sender : String
  recipient : String
  body_text : String
  body_html : String
  labels : String
  received_at : Nat
  is_read : Bool
  is_starred : Bool
  is_deleted : Bool
  deriving Repr, DecidableEq

/-- `Email(user_id=..., **parsed_message)` with column defaults
(`is_deleted=False`) and the auto-assigned primary key. -/
def mkEmailRec (rowId uid : Nat) (p : ParsedMsg) : EmailRec :=
  { id := rowId, message_id := p.message_id, user_id := uid,
    thread_id := p.thread_id, subject := p.subject, sender := p.sender,
    recipient := p.recipient, body_text := p.body_text,
    body_html := p.body_html, labels := p.labels,
    received_at := p.received_at, is_read := p.is_read,
    is_starred := p.is_starred, is_deleted := false }

/-- Outcome of `get_message` + `parse_message` for one listed id:
`get_message` returning `None` (its `HttpError` handler) skips the
message; a raising `parse_message` aborts the whole sync. -/
inductive FetchResult where
  | ok (msg : ParsedMsg)
  | missing
  | parseFail (err : String)
  deriving Repr, DecidableEq

/-- Result of one `sync_emails` request: the store after the request, the
HTTP outcome (synced count, or the 500 detail), and the ids that were
actually fetched from the provider (those not skipped by the local
existence check). -/
structure SyncOut where
  store : List EmailRec
  result : Except String Nat
  fetched : List String
  deriving Repr

/-- The `for msg in messages` loop of `sync_emails`: skip ids already in
the committed store (the session has `autoflush=False`, so the existence
query does not see rows pending in this transaction), fetch the rest,
accumulate parsed messages as pending inserts; a parse failure aborts. -/
def syncLoop (store : List EmailRec) (fetch : String → FetchResult) :
    List String → List ParsedMsg → List String →
      Except String (List ParsedMsg) × List String
  | [], pending, fetched => (.ok pending, fetched)
  | mid :: rest, pending, fetched =>
    if store.any (fun e => e.message_id == mid) then
      syncLoop store fetch rest pending fetched
    else
      match fetch mid with
      | .missing => syncLoop store fetch rest pending (fetched ++ [mid])
      | .parseFail err => (.error err, fetched ++ [mid])
      | .ok p => syncLoop store fetch rest (pending ++ [p]) (fetched ++ [mid])

/-- `db.commit()` of the pending inserts: rows get fresh primary keys and
the insert fails (IntegrityError, `None` here) if the unique constraint
on `message_id` would be violated. -/
def commitNewEmails (store : List EmailRec) (uid : Nat)
    (pending : List ParsedMsg) : Option (List EmailRec) :=
  let base : Nat := store.foldl (fun m e => max m e.id) 0
  let rows : List EmailRec :=
    pending.enum.map (fun ie => mkEmailRec (base + 1 + ie.1) uid ie.2)
  let committed : List EmailRec := store ++ rows
  let ids : List String := committed.map (fun e => e.message_id)
  if ids.Nodup then some committed else none

/-- `sync_emails`: run the loop, then commit once; any raised error
(parse failure or constraint violation at commit) triggers
`db.rollback()` and surfaces as an HTTP 500. -/
def sync_emails (store : List EmailRec) (uid : Nat) (msgs : List String)
    (fetch : String → FetchResult) : SyncOut :=
  match syncLoop store fetch msgs [] [] with
  | (.error err, fetched) =>
    { store := store, result := .error ("Sync failed: " ++ err),
      fetched := fetched }
  | (.ok pending, fetched) =>
    match commitNewEmails store uid pending with
    | some committed =>
      { store := committed, result := .ok pending.length, fetched := fetched }
    | none =>
      { store := store, result := .error "Sync failed: IntegrityError",
        fetched := fetched }

/-- Any finite sequence of sync requests (each with its own user, message
list, and provider behavior). -/
def syncSeq (store : List EmailRec) :
    List (Nat × List String × (String → FetchResult)) → List EmailRec
  | [] => store
  | (uid, msgs, fetch) :: rest =>
    syncSeq (sync_emails store uid msgs fetch).store rest

/-! ## Per-message endpoints (`routes/email.py`)

Each endpoint is a function of the user table, the mirror store, and the
request parameters.  The outcome records the store after the request, the
HTTP result, how many `db.commit()` calls ran, and which remote Gmail
calls were attempted. -/

inductive ApiResult (α : Type) where
  | ok (v : α)
  | httpError (status : Nat) (detail : String)
  deriving Repr

/-- A remote mirroring call attempted by an endpoint
(`gmail_service.modify_message(service, message_id, add/remove labels)`). -/
inductive RemoteCall where
  | modifyMessage (message_id : String)
      (add_labels remove_labels : List String)
  deriving Repr, DecidableEq

structure EndpointOut (α : Type) where
  store : List EmailRec
  result : ApiResult α
  commits : Nat
  remoteCalls : List RemoteCall
  deriving Repr

/-- Response body of the star endpoints. -/
structure StarResponse where
  message : String
  is_starred : Bool
  deriving Repr, DecidableEq

/-- `db.query(User).filter(User.email == email).first()`. -/
def findUser (users : List UserRec) (email : String) : Option UserRec :=
  users.find? (fun u => u.email == email)

/-- The per-message lookup used by `get_email` and all three star
endpoints: filters on id, owner, and `is_deleted == False`. -/
def findActiveEmail (store : List EmailRec) (email_id uid : Nat) :
    Option EmailRec :=
  store.find? (fun e => e.id == email_id && e.user_id == uid && !e.is_deleted)

/-- The lookup used by `delete_email`: filters on id and owner only — no
`is_deleted` filter. -/
def findAnyEmail (store : List EmailRec) (email_id uid : Nat) :
    Option EmailRec :=
  store.find? (fun e => e.id == email_id && e.user_id == uid)

/-- In-place mutation of the row with the given primary key. -/
def updateEmailRow (store : List EmailRec) (email_id : Nat)
    (f : EmailRec → EmailRec) : List EmailRec :=
  store.map (fun e => if e.id == email_id then f e else e)

/-- `GET /emails/{id}`: 404 on unknown user or on no non-deleted matching
row; otherwise mark as read (committing only when it was unread) and
return the record.  No remote call is made. -/
def get_email (users : List UserRec) (store : List EmailRec)
    (email_id : Nat) (email : String) : EndpointOut EmailRec :=
  match findUser users email with
  | none => ⟨store, .httpError 404 "User not found", 0, []⟩
  | some user =>
    match findActiveEmail store email_id user.id with
    | none => ⟨store, .httpError 404 "Email not found", 0, []⟩
    | some r =>
      if r.is_read then ⟨store, .ok r, 0, []⟩
      else
        ⟨updateEmailRow store r.id (fun e => { e with is_read := true }),
          .ok { r with is_read := true }, 1, []⟩

/-- `PUT /emails/{id}/star`: flip and commit the local flag, then attempt
the remote label change; a failing remote call is only logged
(`except ... print`), leaving the response identical. -/
def toggle_star_email (users : List UserRec) (store : List EmailRec)
    (email_id : Nat) (email : String)
    (remote : RemoteCall → Except String Unit) : EndpointOut StarResponse :=
  match findUser users email with
  | none => ⟨store, .httpError 404 "User not found", 0, []⟩
  | some user =>
    match findActiveEmail store email_id user.id with
    | none => ⟨store, .httpError 404 "Email not found", 0, []⟩
    | some r =>
      let newStar : Bool := !r.is_starred
      let store2 : List EmailRec :=
        updateEmailRow store r.id (fun e => { e with is_starred := newStar })
      let call : RemoteCall :=
        if newStar then .modifyMessage r.message_id ["STARRED"] []
        else .modifyMessage r.message_id [] ["STARRED"]
      let resp : StarResponse :=
        ⟨if newStar then "Email starred" else "Email unstarred", newStar⟩
      match remote call with
      | .ok _ => ⟨store2, .ok resp, 1, [call]⟩
      | .error _ => ⟨store2, .ok resp, 1, [call]⟩

/-- `PUT /emails/{id}/star/add`: early-return when already starred (no
commit, no remote call); otherwise set, commit, then best-effort remote
mirror. -/
def star_email (users : List UserRec) (store : List EmailRec)
    (email_id : Nat) (email : String)
    (remote : RemoteCall → Except String Unit) : EndpointOut StarResponse :=
  match findUser users email with
  | none => ⟨store, .httpError 404 "User not found", 0, []⟩
  | some user =>
    match findActiveEmail store email_id user.id with
    | none => ⟨store, .httpError 404 "Email not found", 0, []⟩
    | some r =>
      if r.is_starred then
        ⟨store, .ok ⟨"Email is already starred", true⟩, 0, []⟩
      else
        let store2 : List EmailRec :=
          updateEmailRow store r.id (fun e => { e with is_starred := true })
        let call : RemoteCall := .modifyMessage r.message_id ["STARRED"] []
        match remote call with
        | .ok _ => ⟨store2, .ok ⟨"Email starred successfully", true⟩, 1, [call]⟩
        | .error _ =>
          ⟨store2, .ok ⟨"Email starred successfully", true⟩, 1, [call]⟩

/-- `PUT /emails/{id}/star/remove`: early-return when not starred;
otherwise clear, commit, then best-effort remote mirror. -/
def unstar_email (users : List UserRec) (store : List EmailRec)
    (email_id : Nat) (email : String)
    (remote : RemoteCall → Except String Unit) : EndpointOut StarResponse :=
  match findUser users email with
  | none => ⟨store, .httpError 404 "User not found", 0, []⟩
  | some user =>
    match findActiveEmail store email_id user.id with
    | none => ⟨store, .httpError 404 "Email not found", 0, []⟩
    | some r =>
      if !r.is_starred then
        ⟨store, .ok ⟨"Email is not starred", false⟩, 0, []⟩
      else
        let store2 : List EmailRec :=
          updateEmailRow store r.id (fun e => { e with is_starred := false })
        let call : RemoteCall := .modifyMessage r.message_id [] ["STARRED"]
        match remote call with
        | .ok _ =>
          ⟨store2, .ok ⟨"Email unstarred successfully", false⟩, 1, [call]⟩
        | .error _ =>
          ⟨store2, .ok ⟨"Email unstarred successfully", false⟩, 1, [call]⟩

/-- `DELETE /emails/{id}`: the lookup has no `is_deleted` filter; the
matched row's flag is set and committed.  No remote call is made. -/
def delete_email (users : List UserRec) (store : List EmailRec)
    (email_id : Nat) (email : String) : EndpointOut String :=
  match findUser users email with
  | none => ⟨store, .httpError 404 "User not found", 0, []⟩
  | some user =>
    match findAnyEmail store email_id user.id with
    | none => ⟨store, .httpError 404 "Email not found", 0, []⟩
    | some r =>
      ⟨updateEmailRow store r.id (fun e => { e with is_deleted := true }),
        .ok "Email deleted", 1, []⟩

/-! ## Gateway call wrappers (`extra/service.py`)

Each remote `.execute()` either returns a value, raises
`googleapiclient.errors.HttpError` (a provider-reported status), or
raises a transport exception (timeout / connection failure).  The
wrappers' `try/except HttpError` blocks catch only the second kind. -/

inductive ProviderOutcome (α : Type) where
  | success (v : α)
  | httpError (status : Nat) (reason : String)
  | timeout
  | connectionFailure
  deriving Repr

/-- A fault that escapes a Gateway call wrapper as an uncaught Python
exception. -/
inductive EscapedFault where
  | timeout
  | connectionFailure
  deriving Repr, DecidableEq

namespace GmailService

/-- `list_messages`: `except HttpError` returns `[]`; transport faults
are uncaught and propagate to the caller. -/
def list_messages {α : Type} (outcome : ProviderOutcome (List α)) :
    Except EscapedFault (List α) :=
  match outcome with
  | .success msgs => .ok msgs
  | .httpError _ _ => .ok []
  | .timeout => .error .timeout
  | .connectionFailure => .error .connectionFailure

/-- `get_message`: `except HttpError` returns `None`; transport faults
are uncaught and propagate to the caller. -/
def get_message {α : Type} (outcome : ProviderOutcome α) :
    Except EscapedFault (Option α) :=
  match outcome with
  | .success m => .ok (some m)
  | .httpError _ _ => .ok none
  | .timeout => .error .timeout
  | .connectionFailure => .error .connectionFailure

end GmailService

/-! ## C3: OAuth callback upsert -/

/-- `updateFirstUser` on a store whose first matching row is `u` rewrites
exactly that row. -/
theorem updateFirstUser_append (email : String) (f : UserRec → UserRec)
    (pre : List UserRec) (u : UserRec) (post : List UserRec)
    (hpre : ∀ v ∈ pre, v.email ≠ email) (hu : u.email = email) :
    updateFirstUser (pre ++ u :: post) email f = pre ++ f u :: post := by
  induction pre with
  | nil => simp [updateFirstUser, hu]
  | cons v vs ih =>
    have hv : v.email ≠ email := hpre v (by simp)
    simp [updateFirstUser, hv, ih (fun w hw => hpre w (by simp [hw]))]

/-- C3: when a credential record with the resolved email exists (the first
match being `u`), the callback rewrites exactly that record — tokens
always overwritten, `google_id` and `name` backfilled only when empty —
and the record count is unchanged; when no record matches, a new row is
appended with the fetched identity and fresh tokens. -/
theorem c3_callback_upsert_policy (store : List UserRec) (info : UserInfo)
    (tok rtok : String) :
    (∀ pre u post, store = pre ++ u :: post →
        (∀ v ∈ pre, v.email ≠ info.email) → u.email = info.email →
        callback_upsert store info tok rtok
            = pre ++
                { u with
                  access_token := tok
                  refresh_token := rtok
                  google_id := if u.google_id = "" then info.id else u.google_id
                  name := if u.name = "" then info.name else u.name } :: post
          ∧ (callback_upsert store info tok rtok).length = store.length)
      ∧ ((∀ v ∈ store, v.email ≠ info.email) →
          callback_upsert store info tok rtok
            = store ++
                [{ id := nextUserId store, email := info.email,
                   name := info.name, google_id := info.id,
                   access_token := tok, refresh_token := rtok }]) := by
  constructor
  · intro pre u post hstore hpre hu
    subst hstore
    have hany : (pre ++ u :: post).any (fun v => v.email == info.email) = true :=
      List.any_eq_true.mpr ⟨u, by simp, by simp [hu]⟩
    refine ⟨?_, ?_⟩ <;>
      simp [callback_upsert, hany,
        updateFirstUser_append info.email _ pre u post hpre hu]
  · intro hall
    have hany : store.any (fun v => v.email == info.email) = false := by
      rw [List.any_eq_false]
      intro v hv
      simp [hall v hv]
    simp [callback_upsert, hany]

/-- C3 witness: a second login for an existing record with non-empty name
and google_id overwrites only the tokens and creates no second record. -/
theorem c3_callback_upsert_witness :
    callback_upsert [⟨1, "a@x.com", "Alice", "g1", "oldA", "oldR"⟩]
        ⟨"g-new", "a@x.com", "NewName"⟩ "newA" "newR"
      = [⟨1, "a@x.com", "Alice", "g1", "newA", "newR"⟩] := by
  have h := (c3_callback_upsert_policy
      [⟨1, "a@x.com", "Alice", "g1", "oldA", "oldR"⟩]
      ⟨"g-new", "a@x.com", "NewName"⟩ "newA" "newR").1
      [] ⟨1, "a@x.com", "Alice", "g1", "oldA", "oldR"⟩ [] rfl (by simp) rfl
  simpa using h.1

/-! ## C4, C5: sync invariants -/

/-- A successful commit yields a store whose `message_id`s are duplicate
free (the unique constraint was checked). -/
theorem commitNewEmails_nodup (store : List EmailRec) (uid : Nat)
    (pending : List ParsedMsg) (committed : List EmailRec)
    (h : commitNewEmails store uid pending = some committed) :
    (committed.map (fun e => e.message_id)).Nodup := by
  unfold commitNewEmails at h
  dsimp only at h
  split at h
  · cases h
    assumption
  · cases h

/-- One sync request preserves uniqueness of `message_id` across the whole
store. -/
theorem sync_emails_preserves_nodup (store : List EmailRec) (uid : Nat)
    (msgs : List String) (fetch : String → FetchResult)
    (h : (store.map (fun e => e.message_id)).Nodup) :
    (((sync_emails store uid msgs fetch).store).map
      (fun e => e.message_id)).Nodup := by
  rcases hsl : syncLoop store fetch msgs [] [] with ⟨res, fetched⟩
  cases res with
  | error e =>
    simp only [sync_emails, hsl]
    simpa using h
  | ok pending =>
    rcases hc : commitNewEmails store uid pending with _ | committed
    · simp only [sync_emails, hsl, hc]
      simpa using h
    · simp only [sync_emails, hsl, hc]
      simpa using commitNewEmails_nodup store uid pending committed hc

/-- Any sequence of sync requests preserves uniqueness of `message_id`. -/
theorem syncSeq_preserves_nodup
    (ops : List (Nat × List String × (String → FetchResult)))
    (store : List EmailRec)
    (h : (store.map (fun e => e.message_id)).Nodup) :
    ((syncSeq store ops).map (fun e => e.message_id)).Nodup := by
  induction ops generalizing store with
  | nil => simpa [syncSeq] using h
  | cons op rest ih =>
    rcases op with ⟨uid, msgs, fetch⟩
    exact ih _ (sync_emails_preserves_nodup store uid msgs fetch h)

/-- Every id the loop fetches from the provider fails the local existence
check: ids already mirrored are skipped before fetching. -/
theorem syncLoop_fetched_not_present (store : List EmailRec)
    (fetch : String → FetchResult) :
    ∀ (msgs : List String) (pending : List ParsedMsg) (fetched : List String),
      (∀ m ∈ fetched, ∀ e ∈ store, e.message_id ≠ m) →
      ∀ m ∈ (syncLoop store fetch msgs pending fetched).2,
        ∀ e ∈ store, e.message_id ≠ m := by
  intro msgs
  induction msgs with
  | nil =>
    intro pending fetched hinv m hm
    exact hinv m hm
  | cons mid rest ih =>
    intro pending fetched hinv m hm
    unfold syncLoop at hm
    by_cases hany : store.any (fun e => e.message_id == mid) = true
    · rw [if_pos hany] at hm
      exact ih pending fetched hinv m hm
    · have hnot : ∀ e ∈ store, e.message_id ≠ mid := by
        intro e he
        have := (List.any_eq_false).mp (Bool.eq_false_iff.mpr hany) e he
        simpa using this
      have hext : ∀ m2 ∈ fetched ++ [mid], ∀ e ∈ store, e.message_id ≠ m2 := by
        intro m2 hm2 e he
        rcases List.mem_append.mp hm2 with h2 | h2
        · exact hinv m2 h2 e he
        · rw [List.mem_singleton.mp h2]
          exact hnot e he
      rw [if_neg hany] at hm
      cases hfetch : fetch mid with
      | missing =>
        rw [hfetch] at hm
        exact ih pending (fetched ++ [mid]) hext m hm
      | parseFail err =>
        rw [hfetch] at hm
        exact hext m hm
      | ok p =>
        rw [hfetch] at hm
        exact ih (pending ++ [p]) (fetched ++ [mid]) hext m hm

/-- The ids a sync request fetched, whatever its outcome, are the loop's. -/
theorem sync_emails_fetched (store : List EmailRec) (uid : Nat)
    (msgs : List String) (fetch : String → FetchResult) :
    (sync_emails store uid msgs fetch).fetched
      = (syncLoop store fetch msgs [] []).2 := by
  rcases hsl : syncLoop store fetch msgs [] [] with ⟨res, fetched⟩
  cases res with
  | error e => simp [sync_emails, hsl]
  | ok pending =>
    rcases hc : commitNewEmails store uid pending with _ | committed <;>
      simp [sync_emails, hsl, hc]

/-- C4: if the store's remote message ids are unique across the whole
store, they stay unique after any sequence of sync requests, and a sync
request never fetches an id already present in the store (the existence
check runs before the fetch). -/
theorem c4_sync_unique_message_ids (store : List EmailRec)
    (ops : List (Nat × List String × (String → FetchResult)))
    (uid : Nat) (msgs : List String) (fetch : String → FetchResult)
    (h : (store.map (fun e => e.message_id)).Nodup) :
    ((syncSeq store ops).map (fun e => e.message_id)).Nodup
      ∧ ∀ mid ∈ (sync_emails store uid msgs fetch).fetched,
          ∀ e ∈ store, e.message_id ≠ mid := by
  refine ⟨syncSeq_preserves_nodup ops store h, ?_⟩
  rw [sync_emails_fetched]
  exact syncLoop_fetched_not_present store fetch msgs [] [] (by simp)

/-- C4 witness: one mirrored message, two sync requests. -/
theorem c4_sync_unique_message_ids_witness :
    ((syncSeq
        [⟨1, "m1", 1, "t1", "s1", "f1", "r1", "b1", "h1", "[]", 0,
          false, false, false⟩]
        [(1, ["m1", "m2"], fun _ => FetchResult.missing),
         (1, ["m1"], fun _ => FetchResult.missing)]).map
      (fun e => e.message_id)).Nodup
      ∧ ∀ mid ∈ (sync_emails
            [⟨1, "m1", 1, "t1", "s1", "f1", "r1", "b1", "h1", "[]", 0,
              false, false, false⟩]
            1 ["m1", "m2"] (fun _ => FetchResult.missing)).fetched,
          ∀ e ∈ [(⟨1, "m1", 1, "t1", "s1", "f1", "r1", "b1", "h1", "[]", 0,
              false, false, false⟩ : EmailRec)], e.message_id ≠ mid :=
  c4_sync_unique_message_ids
    [⟨1, "m1", 1, "t1", "s1", "f1", "r1", "b1", "h1", "[]", 0,
      false, false, false⟩]
    [(1, ["m1", "m2"], fun _ => FetchResult.missing),
     (1, ["m1"], fun _ => FetchResult.missing)]
    1 ["m1", "m2"] (fun _ => FetchResult.missing) (by simp)

/-- If some listed id passes the existence check and then fails to parse,
the loop ends in an error. -/
theorem syncLoop_error_of_parseFail (store : List EmailRec)
    (fetch : String → FetchResult) :
    ∀ (msgs : List String) (pending : List ParsedMsg)
      (fetched : List String) (mid : String), mid ∈ msgs →
      (∀ e ∈ store, e.message_id ≠ mid) →
      (∃ err, fetch mid = .parseFail err) →
      ∃ err2, (syncLoop store fetch msgs pending fetched).1 = .error err2 := by
  intro msgs
  induction msgs with
  | nil =>
    intro _ _ mid hm
    cases hm
  | cons m rest ih =>
    intro pending fetched mid hmem hnot hpf
    unfold syncLoop
    rcases List.mem_cons.mp hmem with heq | hmem2
    · subst heq
      have hany : ¬ store.any (fun e => e.message_id == mid) = true := by
        simp only [List.any_eq_true, not_exists]
        intro e
        simp only [not_and, beq_iff_eq]
        exact fun he => hnot e he
      rw [if_neg hany]
      obtain ⟨err, herr⟩ := hpf
      rw [herr]
      exact ⟨err, rfl⟩
    · by_cases hany : store.any (fun e => e.message_id == m) = true
      · rw [if_pos hany]
        exact ih pending fetched mid hmem2 hnot hpf
      · rw [if_neg hany]
        cases fetch m with
        | missing => exact ih pending (fetched ++ [m]) mid hmem2 hnot hpf
        | parseFail e => exact ⟨e, rfl⟩
        | ok p => exact ih (pending ++ [p]) (fetched ++ [m]) mid hmem2 hnot hpf

/-- C5: if some listed message is new (not yet mirrored) and its parse
fails, the whole sync is rolled back — the store after the request is
exactly the store before it (prior syncs' rows untouched, none of this
sync's rows committed) — and an error is surfaced. -/
theorem c5_sync_parse_failure_rollback (store : List EmailRec) (uid : Nat)
    (msgs : List String) (fetch : String → FetchResult)
    (mid : String) (err : String)
    (hmem : mid ∈ msgs) (hnew : ∀ e ∈ store, e.message_id ≠ mid)
    (hfail : fetch mid = .parseFail err) :
    (sync_emails store uid msgs fetch).store = store
      ∧ ∃ d, (sync_emails store uid msgs fetch).result = .error d := by
  obtain ⟨err2, herr2⟩ :=
    syncLoop_error_of_parseFail store fetch msgs [] [] mid hmem hnew ⟨err, hfail⟩
  rcases hsl : syncLoop store fetch msgs [] [] with ⟨res, fetched⟩
  rw [hsl] at herr2
  cases res with
  | error e =>
    refine ⟨?_, ⟨"Sync failed: " ++ e, ?_⟩⟩ <;> simp [sync_emails, hsl]
  | ok pending => simp at herr2

/-- C5 witness: the second of two new messages fails to parse; the
previously mirrored row is untouched and nothing new is committed. -/
theorem c5_sync_parse_failure_rollback_witness :
    (sync_emails
        [⟨1, "m0", 1, "t0", "s0", "f0", "r0", "b0", "h0", "[]", 0,
          false, false, false⟩]
        1 ["m1", "m2"]
        (fun mid => if mid == "m2" then .parseFail "decode error"
          else .missing)).store
      = [⟨1, "m0", 1, "t0", "s0", "f0", "r0", "b0", "h0", "[]", 0,
          false, false, false⟩]
      ∧ ∃ d, (sync_emails
          [⟨1, "m0", 1, "t0", "s0", "f0", "r0", "b0", "h0", "[]", 0,
            false, false, false⟩]
          1 ["m1", "m2"]
          (fun mid => if mid == "m2" then .parseFail "decode error"
            else .missing)).result = .error d :=
  c5_sync_parse_failure_rollback
    [⟨1, "m0", 1, "t0", "s0", "f0", "r0", "b0", "h0", "[]", 0,
      false, false, false⟩]
    1 ["m1", "m2"]
    (fun mid => if mid == "m2" then .parseFail "decode error" else .missing)
    "m2" "decode error" (by simp) (by simp) (by simp)

/-! ## C6, C7, C9, C10: per-message endpoint behavior -/

/-- C6: when the remote mirroring call fails, the star toggle still flips
and commits the local flag and the endpoint reports success with the new
local state — identical to the success case; the remote failure is only
logged. -/
theorem c6_toggle_star_remote_failure (users : List UserRec)
    (store : List EmailRec) (email_id : Nat) (email : String)
    (user : UserRec) (r : EmailRec)
    (remote : RemoteCall → Except String Unit) (err : String)
    (hu : findUser users email = some user)
    (hr : findActiveEmail store email_id user.id = some r)
    (hrem : ∀ c, remote c = .error err) :
    toggle_star_email users store email_id email remote
      = ⟨updateEmailRow store r.id
            (fun e => { e with is_starred := !r.is_starred }),
          .ok ⟨if !r.is_starred then "Email starred" else "Email unstarred",
            !r.is_starred⟩,
          1,
          [if !r.is_starred then
              RemoteCall.modifyMessage r.message_id ["STARRED"] []
            else RemoteCall.modifyMessage r.message_id [] ["STARRED"]]⟩ := by
  simp [toggle_star_email, hu, hr, hrem]

/-- C6 witness: a starred toggle on an unstarred email under a failing
remote provider. -/
theorem c6_toggle_star_remote_failure_witness :
    toggle_star_email [⟨1, "a@x.com", "A", "g", "at", "rt"⟩]
        [⟨7, "m7", 1, "t", "s", "f", "r", "b", "h", "[]", 0,
          false, false, false⟩]
        7 "a@x.com" (fun _ => .error "boom")
      = ⟨updateEmailRow
            [⟨7, "m7", 1, "t", "s", "f", "r", "b", "h", "[]", 0,
              false, false, false⟩]
            7 (fun e => { e with is_starred := true }),
          .ok ⟨"Email starred", true⟩, 1,
          [RemoteCall.modifyMessage "m7" ["STARRED"] []]⟩ := by
  have h := c6_toggle_star_remote_failure
    [⟨1, "a@x.com", "A", "g", "at", "rt"⟩]
    [⟨7, "m7", 1, "t", "s", "f", "r", "b", "h", "[]", 0,
      false, false, false⟩]
    7 "a@x.com" ⟨1, "a@x.com", "A", "g", "at", "rt"⟩
    ⟨7, "m7", 1, "t", "s", "f", "r", "b", "h", "[]", 0,
      false, false, false⟩
    (fun _ => .error "boom") "boom"
    (by simp [findUser]) (by simp [findActiveEmail]) (fun c => rfl)
  simpa using h

/-- C7 counterexample: fetching a single unread email marks it read
locally and succeeds, and soft-deleting succeeds — yet neither endpoint
issues any remote mirroring call. -/
theorem c7_counterexample :
    (get_email [⟨1, "a@x.com", "A", "g", "at", "rt"⟩]
        [⟨7, "m7", 1, "t", "s", "f", "r", "b", "h", "[]", 0,
          false, false, false⟩]
        7 "a@x.com").remoteCalls = []
      ∧ (get_email [⟨1, "a@x.com", "A", "g", "at", "rt"⟩]
          [⟨7, "m7", 1, "t", "s", "f", "r", "b", "h", "[]", 0,
            false, false, false⟩]
          7 "a@x.com").store
        = [⟨7, "m7", 1, "t", "s", "f", "r", "b", "h", "[]", 0,
            true, false, false⟩]
      ∧ (delete_email [⟨1, "a@x.com", "A", "g", "at", "rt"⟩]
          [⟨7, "m7", 1, "t", "s", "f", "r", "b", "h", "[]", 0,
            false, false, false⟩]
          7 "a@x.com").remoteCalls = []
      ∧ (delete_email [⟨1, "a@x.com", "A", "g", "at", "rt"⟩]
          [⟨7, "m7", 1, "t", "s", "f", "r", "b", "h", "[]", 0,
            false, false, false⟩]
          7 "a@x.com").store
        = [⟨7, "m7", 1, "t", "s", "f", "r", "b", "h", "[]", 0,
            false, false, true⟩] := by
  refine ⟨rfl, ?_, rfl, ?_⟩ <;>
    simp [get_email, delete_email, findUser, findActiveEmail, findAnyEmail,
      updateEmailRow]

/-- C7 amended: each of the three mutations updates the local row first,
synchronously; only the star toggle then attempts a remote mirroring
call — `mark_read` (via `get_email`) and `soft_delete` (via
`delete_email`) never contact the remote provider. -/
theorem c7_mutations_local_first (users : List UserRec)
    (store : List EmailRec) (email_id : Nat) (email : String)
    (user : UserRec) (r r2 : EmailRec)
    (remote : RemoteCall → Except String Unit)
    (hu : findUser users email = some user)
    (hr : findActiveEmail store email_id user.id = some r)
    (hread : r.is_read = false)
    (hr2 : findAnyEmail store email_id user.id = some r2) :
    get_email users store email_id email
        = ⟨updateEmailRow store r.id (fun e => { e with is_read := true }),
            .ok { r with is_read := true }, 1, []⟩
      ∧ delete_email users store email_id email
          = ⟨updateEmailRow store r2.id
                (fun e => { e with is_deleted := true }),
              .ok "Email deleted", 1, []⟩
      ∧ (toggle_star_email users store email_id email remote).store
          = updateEmailRow store r.id
              (fun e => { e with is_starred := !r.is_starred })
      ∧ (toggle_star_email users store email_id email remote).remoteCalls
          = [if !r.is_starred then
                RemoteCall.modifyMessage r.message_id ["STARRED"] []
              else RemoteCall.modifyMessage r.message_id [] ["STARRED"]] := by
  refine ⟨by simp [get_email, hu, hr, hread], by simp [delete_email, hu, hr2],
    ?_, ?_⟩ <;>
    · cases hs : r.is_starred with
      | false =>
        rcases hrc : remote (RemoteCall.modifyMessage r.message_id
            ["STARRED"] []) with u | e <;>
          simp [toggle_star_email, hu, hr, hs, hrc]
      | true =>
        rcases hrc : remote (RemoteCall.modifyMessage r.message_id
            [] ["STARRED"]) with u | e <;>
          simp [toggle_star_email, hu, hr, hs, hrc]

/-- C7 witness: the amended statement at a one-user, one-row store. -/
theorem c7_mutations_local_first_witness :
    get_email [⟨1, "a@x.com", "A", "g", "at", "rt"⟩]
        [⟨7, "m7", 1, "t", "s", "f", "r", "b", "h", "[]", 0,
          false, false, false⟩] 7 "a@x.com"
        = ⟨updateEmailRow
              [⟨7, "m7", 1, "t", "s", "f", "r", "b", "h", "[]", 0,
                false, false, false⟩] 7
              (fun e => { e with is_read := true }),
            .ok { (⟨7, "m7", 1, "t", "s", "f", "r", "b", "h", "[]", 0,
              false, false, false⟩ : EmailRec) with is_read := true}, 1, []⟩
      ∧ delete_email [⟨1, "a@x.com", "A", "g", "at", "rt"⟩]
          [⟨7, "m7", 1, "t", "s", "f", "r", "b", "h", "[]", 0,
            false, false, false⟩] 7 "a@x.com"
          = ⟨updateEmailRow
                [⟨7, "m7", 1, "t", "s", "f", "r", "b", "h", "[]", 0,
                  false, false, false⟩] 7
                (fun e => { e with is_deleted := true }),
              .ok "Email deleted", 1, []⟩
      ∧ (toggle_star_email [⟨1, "a@x.com", "A", "g", "at", "rt"⟩]
            [⟨7, "m7", 1, "t", "s", "f", "r", "b", "h", "[]", 0,
              false, false, false⟩] 7 "a@x.com"
            (fun _ => .error "down")).store
          = updateEmailRow
              [⟨7, "m7", 1, "t", "s", "f", "r", "b", "h", "[]", 0,
                false, false, false⟩] 7
              (fun e => { e with is_starred := true })
      ∧ (toggle_star_email [⟨1, "a@x.com", "A", "g", "at", "rt"⟩]
            [⟨7, "m7", 1, "t", "s", "f", "r", "b", "h", "[]", 0,
              false, false, false⟩] 7 "a@x.com"
            (fun _ => .error "down")).remoteCalls
          = [RemoteCall.modifyMessage "m7" ["STARRED"] []] := by
  have h := c7_mutations_local_first
    [⟨1, "a@x.com", "A", "g", "at", "rt"⟩]
    [⟨7, "m7", 1, "t", "s", "f", "r", "b", "h", "[]", 0,
      false, false, false⟩]
    7 "a@x.com" ⟨1, "a@x.com", "A", "g", "at", "rt"⟩
    ⟨7, "m7", 1, "t", "s", "f", "r", "b", "h", "[]", 0,
      false, false, false⟩
    ⟨7, "m7", 1, "t", "s", "f", "r", "b", "h", "[]", 0,
      false, false, false⟩
    (fun _ => .error "down")
    (by simp [findUser]) (by simp [findActiveEmail]) rfl
    (by simp [findAnyEmail])
  simpa using h

/-- C9: `star/add` on an already-starred message and `star/remove` on an
already-unstarred message return success reporting the existing state,
leave the store unchanged, commit nothing, and attempt no remote call. -/
theorem c9_star_set_idempotent (users : List UserRec)
    (store : List EmailRec) (email_id : Nat) (email : String)
    (user : UserRec) (r : EmailRec)
    (remoteA remoteB : RemoteCall → Except String Unit)
    (hu : findUser users email = some user)
    (hr : findActiveEmail store email_id user.id = some r) :
    (r.is_starred = true →
        star_email users store email_id email remoteA
          = ⟨store, .ok ⟨"Email is already starred", true⟩, 0, []⟩)
      ∧ (r.is_starred = false →
          unstar_email users store email_id email remoteB
            = ⟨store, .ok ⟨"Email is not starred", false⟩, 0, []⟩) := by
  constructor <;> intro hs <;>
    simp [star_email, unstar_email, hu, hr, hs]

/-- C9 witness: both set endpoints on stores already in the requested
state. -/
theorem c9_star_set_idempotent_witness :
    star_email [⟨1, "a@x.com", "A", "g", "at", "rt"⟩]
        [⟨7, "m7", 1, "t", "s", "f", "r", "b", "h", "[]", 0,
          false, true, false⟩]
        7 "a@x.com" (fun _ => .ok ())
      = ⟨[⟨7, "m7", 1, "t", "s", "f", "r", "b", "h", "[]", 0,
            false, true, false⟩],
          .ok ⟨"Email is already starred", true⟩, 0, []⟩ :=
  (c9_star_set_idempotent [⟨1, "a@x.com", "A", "g", "at", "rt"⟩]
      [⟨7, "m7", 1, "t", "s", "f", "r", "b", "h", "[]", 0,
        false, true, false⟩]
      7 "a@x.com" ⟨1, "a@x.com", "A", "g", "at", "rt"⟩
      ⟨7, "m7", 1, "t", "s", "f", "r", "b", "h", "[]", 0,
        false, true, false⟩
      (fun _ => .ok ()) (fun _ => .ok ())
      (by simp [findUser]) (by simp [findActiveEmail])).1 rfl

/-- C10: when every row with the requested id is soft-deleted (with a
unique primary key: the row is deleted), `get_email` and all three star
endpoints answer 404 "Email not found" — byte-identical to the answer for
a nonexistent id — while `delete_email` still matches the row and
succeeds again, leaving the store unchanged (the flag stays set). -/
theorem c10_soft_deleted_invisible (users : List UserRec)
    (store : List EmailRec) (email_id : Nat) (email : String)
    (user : UserRec) (r : EmailRec)
    (remoteA remoteB remoteC : RemoteCall → Except String Unit)
    (hu : findUser users email = some user)
    (hall : ∀ e ∈ store, e.id = email_id → e.is_deleted = true)
    (hr : findAnyEmail store email_id user.id = some r) :
    get_email users store email_id email
        = ⟨store, .httpError 404 "Email not found", 0, []⟩
      ∧ toggle_star_email users store email_id email remoteA
          = ⟨store, .httpError 404 "Email not found", 0, []⟩
      ∧ star_email users store email_id email remoteB
          = ⟨store, .httpError 404 "Email not found", 0, []⟩
      ∧ unstar_email users store email_id email remoteC
          = ⟨store, .httpError 404 "Email not found", 0, []⟩
      ∧ delete_email users store email_id email
          = ⟨store, .ok "Email deleted", 1, []⟩ := by
  have hact : findActiveEmail store email_id user.id = none := by
    apply List.find?_eq_none.mpr
    intro e he
    by_cases hid : e.id = email_id
    · simp [hid, hall e he hid]
    · simp [hid]
  have hmem := List.mem_of_find?_eq_some hr
  have hpred := List.find?_some hr
  have hrid : r.id = email_id := by
    simp only [Bool.and_eq_true, beq_iff_eq] at hpred
    exact hpred.1
  have hstore : updateEmailRow store r.id
      (fun e => { e with is_deleted := true }) = store := by
    unfold updateEmailRow
    have hfix : ∀ e ∈ store,
        (if e.id == r.id then { e with is_deleted := true } else e) = e := by
      intro e he
      by_cases hid : e.id = r.id
      · have hdel : e.is_deleted = true := hall e he (hrid ▸ hid)
        cases e
        simp_all
      · simp [hid]
    rw [List.map_congr_left hfix, List.map_id']
  refine ⟨by simp [get_email, hu, hact],
    by simp [toggle_star_email, hu, hact],
    by simp [star_email, hu, hact],
    by simp [unstar_email, hu, hact],
    by simp [delete_email, hu, hr, hstore]⟩

/-- C10 witness: a store holding one soft-deleted row. -/
theorem c10_soft_deleted_invisible_witness :
    get_email [⟨1, "a@x.com", "A", "g", "at", "rt"⟩]
        [⟨7, "m7", 1, "t", "s", "f", "r", "b", "h", "[]", 0,
          false, false, true⟩] 7 "a@x.com"
        = ⟨[⟨7, "m7", 1, "t", "s", "f", "r", "b", "h", "[]", 0,
              false, false, true⟩],
            .httpError 404 "Email not found", 0, []⟩
      ∧ toggle_star_email [⟨1, "a@x.com", "A", "g", "at", "rt"⟩]
          [⟨7, "m7", 1, "t", "s", "f", "r", "b", "h", "[]", 0,
            false, false, true⟩] 7 "a@x.com" (fun _ => .ok ())
          = ⟨[⟨7, "m7", 1, "t", "s", "f", "r", "b", "h", "[]", 0,
                false, false, true⟩],
              .httpError 404 "Email not found", 0, []⟩
      ∧ star_email [⟨1, "a@x.com", "A", "g", "at", "rt"⟩]
          [⟨7, "m7", 1, "t", "s", "f", "r", "b", "h", "[]", 0,
            false, false, true⟩] 7 "a@x.com" (fun _ => .ok ())
          = ⟨[⟨7, "m7", 1, "t", "s", "f", "r", "b", "h", "[]", 0,
                false, false, true⟩],
              .httpError 404 "Email not found", 0, []⟩
      ∧ unstar_email [⟨1, "a@x.com", "A", "g", "at", "rt"⟩]
          [⟨7, "m7", 1, "t", "s", "f", "r", "b", "h", "[]", 0,
            false, false, true⟩] 7 "a@x.com" (fun _ => .ok ())
          = ⟨[⟨7, "m7", 1, "t", "s", "f", "r", "b", "h", "[]", 0,
                false, false, true⟩],
              .httpError 404 "Email not found", 0, []⟩
      ∧ delete_email [⟨1, "a@x.com", "A", "g", "at", "rt"⟩]
          [⟨7, "m7", 1, "t", "s", "f", "r", "b", "h", "[]", 0,
            false, false, true⟩] 7 "a@x.com"
          = ⟨[⟨7, "m7", 1, "t", "s", "f", "r", "b", "h", "[]", 0,
                false, false, true⟩],
              .ok "Email deleted", 1, []⟩ :=
  c10_soft_deleted_invisible [⟨1, "a@x.com", "A", "g", "at", "rt"⟩]
    [⟨7, "m7", 1, "t", "s", "f", "r", "b", "h", "[]", 0,
      false, false, true⟩]
    7 "a@x.com" ⟨1, "a@x.com", "A", "g", "at", "rt"⟩
    ⟨7, "m7", 1, "t", "s", "f", "r", "b", "h", "[]", 0,
      false, false, true⟩
    (fun _ => .ok ()) (fun _ => .ok ()) (fun _ => .ok ())
    (by simp [findUser]) (by simp) (by simp [findAnyEmail])

/-! ## C8 theorems -/

/-- C8 counterexample: a transport fault during a Gateway call is not
caught by the wrapper's `except HttpError` and escapes the Gateway
boundary as a bare fault. -/
theorem c8_gateway_counterexample :
    GmailService.get_message (ProviderOutcome.timeout : ProviderOutcome Nat)
        = .error .timeout
      ∧ GmailService.list_messages
          (ProviderOutcome.connectionFailure : ProviderOutcome (List Nat))
          = .error .connectionFailure :=
  ⟨rfl, rfl⟩

/-- C8 amended: the Gateway wrappers catch exactly the provider-reported
`HttpError` failures, returning an empty sentinel (`[]` / `None`);
transport faults (timeout, connection failure) are not caught and
propagate past the Gateway boundary. -/
theorem c8_gateway_catches_only_http {α : Type} (status : Nat)
    (reason : String) (msgs : List α) (m : α) :
    GmailService.list_messages
          (ProviderOutcome.httpError status reason : ProviderOutcome (List α))
        = .ok []
      ∧ GmailService.get_message
          (ProviderOutcome.httpError status reason : ProviderOutcome α)
        = .ok none
      ∧ GmailService.list_messages (.success msgs) = .ok msgs
      ∧ GmailService.get_message (.success m) = .ok (some m)
      ∧ GmailService.list_messages
          (ProviderOutcome.timeout : ProviderOutcome (List α))
        = .error .timeout
      ∧ GmailService.get_message
          (ProviderOutcome.timeout : ProviderOutcome α) = .error .timeout
      ∧ GmailService.list_messages
          (ProviderOutcome.connectionFailure : ProviderOutcome (List α))
        = .error .connectionFailure
      ∧ GmailService.get_message
          (ProviderOutcome.connectionFailure : ProviderOutcome α)
        = .error .connectionFailure :=
  ⟨rfl, rfl, rfl, rfl, rfl, rfl, rfl, rfl⟩
